import Mathlib

/-!
Shallow embedding of the RabbitMQ provisioning service
(`rabbitmq_provisioner.py` and `provissioning_service.py`).

Python values flowing through the service are parsed JSON; they are
modelled by the inductive type `Json`.  Python's exceptional behaviour
(KeyError on dict lookup, TypeError on subscripting a non-dict,
AttributeError on `.strip()` of a non-string) is modelled by `Except PyErr`.
The remote RabbitMQ management API is modelled by an environment oracle
that yields, for every outgoing call (indexed by issuance order) and every
attempt of that call, the attempt's outcome.  Each function of the source
is translated into a Lean function that returns its Python return value
together with the list of HTTP calls it issued (method, endpoint, JSON
body) and the list of log lines it emitted.
-/

/-- Parsed JSON value, as handled by the Python service. -/
inductive Json where
  | str : String → Json
  | num : Int → Json
  | bool : Bool → Json
  | null : Json
  | arr : List Json → Json
  | obj : List (String × Json) → Json

/-- Python exceptions that the modelled code can raise. -/
inductive PyErr where
  | keyError : String → PyErr
  | typeError : PyErr
  | attrError : PyErr
deriving DecidableEq

mutual

/-- Structural equality of JSON values, modelling Python `==` on parsed
JSON data (values of distinct kinds compare unequal). -/
def jsonBeq : Json → Json → Bool
  | .str a, .str b => a == b
  | .num a, .num b => a == b
  | .bool a, .bool b => a == b
  | .null, .null => true
  | .arr a, .arr b => jsonListBeq a b
  | .obj a, .obj b => jsonObjBeq a b
  | _, _ => false

/-- Elementwise equality of JSON arrays. -/
def jsonListBeq : List Json → List Json → Bool
  | [], [] => true
  | a :: as, b :: bs => jsonBeq a b && jsonListBeq as bs
  | _, _ => false

/-- Elementwise equality of JSON objects (field order significant). -/
def jsonObjBeq : List (String × Json) → List (String × Json) → Bool
  | [], [] => true
  | (ka, va) :: as, (kb, vb) :: bs => ka == kb && jsonBeq va vb && jsonObjBeq as bs
  | _, _ => false

end

mutual

/-- Python `repr()` of a parsed JSON value (used by `str()` on containers). -/
def pyRepr : Json → String
  | .str s => "\x27" ++ s ++ "\x27"
  | .num n => toString n
  | .bool b => if b then "True" else "False"
  | .null => "None"
  | .arr xs => "[" ++ pyReprArr xs ++ "]"
  | .obj kvs => "\x7b" ++ pyReprObj kvs ++ "\x7d"

/-- Comma-separated `repr()` of array elements. -/
def pyReprArr : List Json → String
  | [] => ""
  | [x] => pyRepr x
  | x :: y :: xs => pyRepr x ++ ", " ++ pyReprArr (y :: xs)

/-- Comma-separated `repr()` of object entries. -/
def pyReprObj : List (String × Json) → String
  | [] => ""
  | [(k, v)] => "\x27" ++ k ++ "\x27: " ++ pyRepr v
  | (k, v) :: kv :: kvs => "\x27" ++ k ++ "\x27: " ++ pyRepr v ++ ", " ++ pyReprObj (kv :: kvs)

end

/-- Python `str()` of a parsed JSON value, as interpolated by f-strings. -/
def pyStr : Json → String
  | .str s => s
  | j => pyRepr j

mutual

/-- Python `json.dumps` with its default separators. -/
def jsonDumps : Json → String
  | .str s => "\"" ++ s ++ "\""
  | .num n => toString n
  | .bool b => if b then "true" else "false"
  | .null => "null"
  | .arr xs => "[" ++ jsonDumpsArr xs ++ "]"
  | .obj kvs => "\x7b" ++ jsonDumpsObj kvs ++ "\x7d"

/-- Comma-separated `json.dumps` of array elements. -/
def jsonDumpsArr : List Json → String
  | [] => ""
  | [x] => jsonDumps x
  | x :: y :: xs => jsonDumps x ++ ", " ++ jsonDumpsArr (y :: xs)

/-- Comma-separated `json.dumps` of object entries. -/
def jsonDumpsObj : List (String × Json) → String
  | [] => ""
  | [(k, v)] => "\"" ++ k ++ "\": " ++ jsonDumps v
  | (k, v) :: kv :: kvs => "\"" ++ k ++ "\": " ++ jsonDumps v ++ ", " ++ jsonDumpsObj (kv :: kvs)

end

/-- Python truthiness of a parsed JSON value. -/
def pyTruthy : Json → Bool
  | .str s => !(s == "")
  | .num n => !(n == 0)
  | .bool b => b
  | .null => false
  | .arr xs => !xs.isEmpty
  | .obj kvs => !kvs.isEmpty

/-- Whitespace characters stripped by Python `str.strip()`. -/
def pyIsSpace (c : Char) : Bool :=
  c == ' ' || c == '\t' || c == '\n' || c == '\r' || c == '\x0b' || c == '\x0c'

/-- Python `str.strip()`. -/
def pyStrip (s : String) : String :=
  String.mk (((s.data.dropWhile pyIsSpace).reverse.dropWhile pyIsSpace).reverse)

/-- Python subscript `d[k]`: KeyError when the key is absent from a dict,
TypeError when subscripting a non-dict with a string key. -/
def dictGet (j : Json) (k : String) : Except PyErr Json :=
  match j with
  | .obj kvs =>
    match kvs.find? (fun kv => kv.1 == k) with
    | some kv => .ok kv.2
    | none => .error (.keyError k)
  | _ => .error .typeError

/-- Python `d.get(k)`: `None`-or-value on a dict, AttributeError otherwise. -/
def dictGetOpt (j : Json) (k : String) : Except PyErr (Option Json) :=
  match j with
  | .obj kvs => .ok ((kvs.find? (fun kv => kv.1 == k)).map (fun kv => kv.2))
  | _ => .error .attrError

/-- Python `d.get(k, default)`: value-or-default on a dict, AttributeError
otherwise. -/
def dictGetD (j : Json) (k : String) (d : Json) : Except PyErr Json :=
  match j with
  | .obj kvs => .ok (((kvs.find? (fun kv => kv.1 == k)).map (fun kv => kv.2)).getD d)
  | _ => .error .attrError

/-- Python iteration over a parsed JSON value: arrays yield their elements,
strings their characters, dicts their keys; other values raise TypeError. -/
def pyIter : Json → Except PyErr (List Json)
  | .arr xs => .ok xs
  | .str s => .ok (s.data.map (fun c => .str (String.mk [c])))
  | .obj kvs => .ok (kvs.map (fun kv => .str kv.1))
  | _ => .error .typeError

/-- Boolean test that `n` occurs at the head of `h`. -/
def listPrefixEq : List Char → List Char → Bool
  | [], _ => true
  | _ :: _, [] => false
  | a :: as, b :: bs => a == b && listPrefixEq as bs

/-- Boolean test that `n` occurs contiguously somewhere in the second list. -/
def listSub (n : List Char) : List Char → Bool
  | [] => listPrefixEq n []
  | c :: t => listPrefixEq n (c :: t) || listSub n t

/-- Python `needle in hay` on strings. -/
def strContainsSub (hay needle : String) : Bool :=
  listSub needle.data hay.data

/-! ## Administrative API Client: `_make_api_call` -/

/-- Outcome of one HTTP attempt inside `_make_api_call`: a 2xx response
(carrying `some body` when the response text is decodable JSON and `none`
when `.json()` would raise), an HTTP error with its status code (4xx/5xx,
raised by `raise_for_status`), or a connection-level `RequestException`. -/
inductive AttemptResult where
  | ok : Option Json → AttemptResult
  | httpError : Nat → AttemptResult
  | connError : AttemptResult

/-- Observable behaviour of one `_make_api_call` run: the returned response
(`none` models Python `None`; `some body` a 2xx response whose `.json()`
parses to `body` when `body = some js`), the number of HTTP attempts
actually issued, and the argument of each `sleep` in issuance order. -/
structure CallTrace where
  result : Option (Option Json)
  attemptsMade : Nat
  sleeps : List Nat

/-- Retry budget of `_make_api_call` (`max_retries = 3`). -/
def max_retries : Nat := 3

/-- Loop body of `_make_api_call`, from loop counter `attempt` with `fuel`
iterations of `for attempt in range(max_retries)` remaining. -/
def apiCallFrom (env : Nat → AttemptResult) : Nat → Nat → CallTrace
  | _, 0 => ⟨none, 0, []⟩
  | attempt, fuel + 1 =>
    match env attempt with
    | .ok body => ⟨some body, 1, []⟩
    | .httpError s =>
      if s = 401 ∨ s = 403 then ⟨none, 1, []⟩
      else if attempt = max_retries - 1 then ⟨none, 1, []⟩
      else
        let rest := apiCallFrom env (attempt + 1) fuel
        ⟨rest.result, rest.attemptsMade + 1, 2 ^ attempt :: rest.sleeps⟩
    | .connError =>
      if attempt = max_retries - 1 then ⟨none, 1, []⟩
      else
        let rest := apiCallFrom env (attempt + 1) fuel
        ⟨rest.result, rest.attemptsMade + 1, 2 ^ attempt :: rest.sleeps⟩

/-- Embedding of `_make_api_call` for one endpoint, abstracted over the
per-attempt outcomes `env` supplied by the upstream broker. -/
def _make_api_call (env : Nat → AttemptResult) : CallTrace :=
  apiCallFrom env 0 max_retries

/-- Attempt outcomes that `_make_api_call` retries: connection errors and
HTTP errors other than 401/403. -/
def retryableAttempt : AttemptResult → Bool
  | .ok _ => false
  | .httpError s => !(decide (s = 401 ∨ s = 403))
  | .connError => true

/-! ## Authorization Checker: `check_developer_config_rights` -/

/-- Environment oracle for a whole provisioning run: `env ci a` is the
outcome of attempt `a` of the `ci`-th HTTP call the run issues (issuance
order: 0 = permissions GET, 1 = user PUT, 2 = permissions PUT). -/
def Env : Type := Nat → Nat → AttemptResult

/-- One HTTP call issued against the management API. -/
structure ApiCall where
  method : String
  endpoint : String
  body : Option Json

/-- Return value, issued calls and log lines of one
`check_developer_config_rights` run. -/
structure CheckOut where
  result : Except PyErr Bool
  calls : List ApiCall
  logs : List String

/-- First permission entry whose `'vhost'` subscript equals the target
(the generator inside `next(...)`): elements before a match are subscripted
in order, so a pre-match element that is not a dict or lacks the key raises. -/
def findVhostPerm (target_vhost : Json) : List Json → Except PyErr (Option Json)
  | [] => .ok none
  | p :: rest => do
    let v ← dictGet p "vhost"
    if jsonBeq v target_vhost then .ok (some p) else findVhostPerm target_vhost rest

/-- Decision part of `check_developer_config_rights` (everything after the
`_make_api_call`), as a function of the call's returned response; its second
component is the log lines emitted after the initial info line. -/
def checkDecision (requester_username target_vhost : Json) (r : Option (Option Json)) :
    Except PyErr Bool × List String :=
  let notAuth := "Developer " ++ pyStr requester_username ++
    " is NOT authorized. Configure regex is empty or null."
  let noPerms := "Developer " ++ pyStr requester_username ++
    " has no defined permissions on vhost /" ++ pyStr target_vhost ++ "."
  match r with
  | none =>
    (.ok false, ["Failed to retrieve permissions for " ++ pyStr requester_username ++
      ". API call failed."])
  | some none =>
    (.ok false, ["Failed to decode permissions response for " ++ pyStr requester_username ++ "."])
  | some (some js) =>
    match pyIter js with
    | .error e => (.error e, [])
    | .ok items =>
      match findVhostPerm target_vhost items with
      | .error e => (.error e, [])
      | .ok none => (.ok false, [noPerms])
      | .ok (some p) =>
        if pyTruthy p then
          match dictGetOpt p "configure" with
          | .error e => (.error e, [])
          | .ok config_regex =>
            match config_regex with
            | none => (.ok false, [notAuth])
            | some v =>
              if pyTruthy v then
                match v with
                | .str s =>
                  if !((pyStrip s) == "") then
                    (.ok true, ["Developer " ++ pyStr requester_username ++
                      " is authorized. Config regex: \x27" ++ s ++ "\x27"])
                  else (.ok false, [notAuth])
                | _ => (.error .attrError, [])
              else (.ok false, [notAuth])
        else (.ok false, [noPerms])

/-- Embedding of `check_developer_config_rights`, issuing call number `ci`
of the run. -/
def check_developer_config_rights (env : Env) (ci : Nat)
    (requester_username target_vhost : Json) : CheckOut :=
  let d := checkDecision requester_username target_vhost (_make_api_call (env ci)).result
  ⟨d.1,
   [⟨"GET", "/api/users/" ++ pyStr requester_username ++ "/permissions", none⟩],
   ("Checking config rights for " ++ pyStr requester_username ++ " on vhost /" ++
     pyStr target_vhost ++ "...") :: d.2⟩

/-! ## Provisioning Orchestrator: `provision_user` -/

/-- Values bound by the field-extraction `try` block of `provision_user`. -/
structure Fields where
  requester_username : Json
  target_vhost : Json
  new_app_username : Json
  new_password : Json
  configure_regex : Json
  read_regex : Json
  write_regex : Json
  new_queue_name : Json

/-- Field extraction of `provision_user`, in source order; the first failing
subscript determines the raised exception. -/
def extractFields (request_data : Json) : Except PyErr Fields := do
  let requester_username ← dictGet request_data "requester_username"
  let target_vhost ← dictGet request_data "target_host"
  let new_app_username ← dictGet request_data "username"
  let new_password ← dictGet request_data "password"
  let permissions_data ← dictGet request_data "permissions"
  let configure_regex ← dictGet permissions_data "configure"
  let read_regex ← dictGet permissions_data "read"
  let write_regex ← dictGet permissions_data "write"
  let new_queue_name ← dictGet request_data "new_queue_name"
  return ⟨requester_username, target_vhost, new_app_username, new_password,
          configure_regex, read_regex, write_regex, new_queue_name⟩

/-- Return value (or uncaught exception), issued calls and log lines of one
`provision_user` run. -/
structure ProvOut where
  outcome : Except PyErr (Bool × String)
  calls : List ApiCall
  logs : List String

/-- Body of `provision_user` after successful field extraction (stages 1-3
of the orchestration: authorization check, user-creation PUT, permission
PUT).  The log lines that `_make_api_call` itself emits on failed attempts
carry only environment-derived data and are not modelled. -/
def provisionMain (env : Env) (request_data : Json) (f : Fields) : ProvOut :=
  let logs0 := ["--- Provisioning Request for VHost: /" ++ pyStr f.target_vhost ++ " ---",
      "Requester: " ++ pyStr f.requester_username ++ ", New User: " ++
        pyStr f.new_app_username ++ ", Queue: " ++ pyStr f.new_queue_name]
    let chk := check_developer_config_rights env 0 f.requester_username f.target_vhost
    match chk.result with
    | .error e => ⟨.error e, chk.calls, logs0 ++ chk.logs⟩
    | .ok false =>
      let error_msg := "AUTHORIZATION FAILED: " ++ pyStr f.requester_username ++
        " is not permitted to provision resources on vhost /" ++ pyStr f.target_vhost ++ "."
      ⟨.ok (false, error_msg), chk.calls, logs0 ++ chk.logs ++ [error_msg]⟩
    | .ok true =>
      let log1 := "Creating user " ++ pyStr f.new_app_username ++ "..."
      let user_endpoint := "/api/users/" ++ pyStr f.new_app_username
      match dictGetD request_data "tags" (Json.str "management") with
      | .error e => ⟨.error e, chk.calls, logs0 ++ chk.logs ++ [log1]⟩
      | .ok user_tags =>
        let user_data := Json.obj [("password", f.new_password), ("tags", user_tags)]
        let c1 := _make_api_call (env 1)
        let calls1 := chk.calls ++ [⟨"PUT", user_endpoint, some user_data⟩]
        match c1.result with
        | none =>
          ⟨.ok (false, "Failed to create user " ++ pyStr f.new_app_username ++
            ". Check logs for details."), calls1, logs0 ++ chk.logs ++ [log1]⟩
        | some _ =>
          let log2 := "User " ++ pyStr f.new_app_username ++
            " created successfully (or already exists)."
          let log3 := "Setting permissions for " ++ pyStr f.new_app_username ++
            " on vhost /" ++ pyStr f.target_vhost ++ "..."
          let perms_endpoint := "/api/permissions/" ++ pyStr f.target_vhost ++ "/" ++
            pyStr f.new_app_username
          let perms_data := Json.obj [("configure", f.configure_regex),
            ("write", f.write_regex), ("read", f.read_regex)]
          let c2 := _make_api_call (env 2)
          let calls2 := calls1 ++ [⟨"PUT", perms_endpoint, some perms_data⟩]
          match c2.result with
          | none =>
            ⟨.ok (false, "Failed to set permissions for " ++ pyStr f.new_app_username ++
              " on vhost /" ++ pyStr f.target_vhost ++ ". Cleanup needed."), calls2,
              logs0 ++ chk.logs ++ [log1, log2, log3]⟩
          | some _ =>
            let log4 := "Permissions set successfully: Configure regex \x27" ++
              pyStr f.configure_regex ++ "\x27 , Read regex \x27" ++ pyStr f.read_regex ++
              "\x27, Write regex \x27" ++ pyStr f.write_regex ++ "\x27."
            ⟨.ok (true, "SUCCESS: User " ++ pyStr f.new_app_username ++
              " created with permissions on vhost /" ++ pyStr f.target_vhost ++
              " for queue \x27" ++ pyStr f.new_queue_name ++ "\x27."), calls2,
              logs0 ++ chk.logs ++ [log1, log2, log3, log4]⟩

/-- Embedding of `provision_user`.  The `try`/`except KeyError` around field
extraction catches only KeyError — it turns a missing key into the
MALFORMED REQUEST outcome (Python renders the caught KeyError as the quoted
key name) — while any other exception propagates uncaught. -/
def provision_user (env : Env) (request_data : Json) : ProvOut :=
  match extractFields request_data with
  | .error (.keyError k) =>
    let error_msg := "MALFORMED REQUEST: Missing mandatory field: \x27" ++ k ++ "\x27"
    ⟨.ok (false, error_msg), [], [error_msg]⟩
  | .error e => ⟨.error e, [], []⟩
  | .ok f => provisionMain env request_data f

/-! ## HTTP front end: `handle_provisioning_request` -/

/-- HTTP status and body message (or uncaught exception) plus the service
logger's lines for one `handle_provisioning_request` run (the request body
is taken as already-parsed JSON; Flask transport is outside the model). -/
structure ServiceOut where
  status : Except PyErr (Nat × String)
  logs : List String

/-- Embedding of `handle_provisioning_request`. -/
def handle_provisioning_request (env : Env) (request_data : Json) : ServiceOut :=
  let log0 := "Received provisioning request: " ++ jsonDumps request_data
  let p := provision_user env request_data
  match p.outcome with
  | .error e => ⟨.error e, [log0]⟩
  | .ok (true, message) =>
    ⟨.ok (201, message), [log0, "Provisioning SUCCESS: " ++ message]⟩
  | .ok (false, message) =>
    let status_code :=
      if strContainsSub message "AUTHORIZATION FAILED" then 403
      else if strContainsSub message "MALFORMED REQUEST" then 400
      else 500
    ⟨.ok (status_code, message), [log0, "Provisioning FAILED: " ++ message]⟩

/-! ## Concrete fixtures used by witnesses and counterexamples -/

/-- Permissions body under which `alice` holds configure rights on
`dev-vhost`. -/
def permsGrantBody : Json :=
  .arr [.obj [("vhost", .str "dev-vhost"), ("configure", .str ".*"),
              ("write", .str ".*"), ("read", .str ".*")]]

/-- Environment in which every call's first attempt succeeds; the
permissions GET (call 0) returns `permsGrantBody`. -/
def envAllOk : Env := fun ci _ =>
  if ci = 0 then .ok (some permsGrantBody) else .ok (some (Json.obj []))

/-- Complete provisioning request, requester password included. -/
def cexReqFull : Json :=
  .obj [("requester_username", .str "alice"),
        ("requester_password", .str "Wr0ngPass"),
        ("target_host", .str "dev-vhost"),
        ("username", .str "appuser"),
        ("password", .str "Str0ngPwB"),
        ("permissions", .obj [("configure", .str ".*"), ("read", .str "q.*"),
                              ("write", .str "q.*")]),
        ("new_queue_name", .str "orders")]

/-- Provisioning request containing every field the code extracts but no
`requester_password`. -/
def cexReqNoRPw : Json :=
  .obj [("requester_username", .str "alice"),
        ("target_host", .str "dev-vhost"),
        ("username", .str "appuser"),
        ("password", .str "Str0ngPwB"),
        ("permissions", .obj [("configure", .str ".*"), ("read", .str "q.*"),
                              ("write", .str "q.*")]),
        ("new_queue_name", .str "orders")]

/-- Provisioning request whose `permissions` field is present but is a
string rather than an object. -/
def rdBadPerms : Json :=
  .obj [("requester_username", .str "alice"),
        ("target_host", .str "dev-vhost"),
        ("username", .str "appuser"),
        ("password", .str "Str0ngPwB"),
        ("permissions", .str "not-an-object"),
        ("new_queue_name", .str "orders")]

/-- Request builder carrying every field of the request shape, used to
state that outcomes do not depend on the two password fields. -/
def mkRequestFull (ru rpw tv nu npw cfg rg wg q tg : Json) : Json :=
  .obj [("requester_username", ru), ("requester_password", rpw), ("target_host", tv),
        ("username", nu), ("password", npw),
        ("permissions", .obj [("configure", cfg), ("read", rg), ("write", wg)]),
        ("new_queue_name", q), ("tags", tg)]

/-- Request builder with exactly the fields the code requires and no
`requester_password`. -/
def mkRequestNoRPw (ru tv nu npw cfg rg wg q : Json) : Json :=
  .obj [("requester_username", ru), ("target_host", tv), ("username", nu),
        ("password", npw),
        ("permissions", .obj [("configure", cfg), ("read", rg), ("write", wg)]),
        ("new_queue_name", q)]

/-! ## Helper lemmas -/

theorem listPrefixEq_append (n t : List Char) : listPrefixEq n (n ++ t) = true := by
  induction n with
  | nil => rfl
  | cons a as ih => simp [listPrefixEq, ih]

theorem listSub_of_prefixEq {n h : List Char} (hp : listPrefixEq n h = true) :
    listSub n h = true := by
  cases h with
  | nil => simpa [listSub] using hp
  | cons c t => simp [listSub, hp]

theorem listSub_append_left (n : List Char) {t : List Char} (pre : List Char)
    (h : listSub n t = true) : listSub n (pre ++ t) = true := by
  induction pre with
  | nil => simpa using h
  | cons c cs ih => simp [listSub, ih]

/-- Substring containment from an explicit decomposition of the haystack. -/
theorem strContainsSub_of_data (hay needle : String) (pre post : List Char)
    (h : hay.data = pre ++ (needle.data ++ post)) : strContainsSub hay needle = true := by
  unfold strContainsSub
  rw [h]
  exact listSub_append_left _ pre (listSub_of_prefixEq (listPrefixEq_append _ _))

/-- Requests that pass field extraction are dicts. -/
theorem extract_obj {rd : Json} {f : Fields} (h : extractFields rd = .ok f) :
    ∃ kvs, rd = .obj kvs := by
  cases rd <;> first
    | exact ⟨_, rfl⟩
    | simp [extractFields, dictGet, Bind.bind, Except.bind] at h

/-- Reduction of `provision_user` on a request whose extraction succeeds. -/
theorem provision_user_eq_main (env : Env) (rd : Json) (f : Fields)
    (h : extractFields rd = .ok f) : provision_user env rd = provisionMain env rd f := by
  unfold provision_user
  rw [h]

/-- Environment in which every attempt of every call raises a connection
error. -/
def envDown : Env := fun _ _ => .connError

/-- Environment whose permissions GET returns valid JSON that is an array
whose single entry is an object with no `vhost` field. -/
def envBadPerms : Env := fun _ _ => .ok (some (.arr [.obj []]))

/-- Test used by the specification's words for the permissions response
shape: a permission object carrying a `vhost` field. -/
def hasVhostField (p : Json) : Bool :=
  match p with
  | .obj kvs => ((kvs.find? (fun kv => kv.1 == "vhost")).map (fun kv => kv.2)).isSome
  | _ => false

/-- Response shape the specification expects from the permissions GET: an
array of permission objects each carrying a `vhost` field. -/
def expectedPermsShape (j : Json) : Bool :=
  match j with
  | .arr items => items.all hasVhostField
  | _ => false

/-! ## C10 -/

/-- C10: `provision_user` is not total over arbitrary JSON-object inputs:
when `permissions` is present but is a string rather than an object, field
extraction raises an uncaught TypeError (the `except KeyError` does not
catch it) instead of returning a MalformedRequest outcome. -/
theorem C10_confirmed (env : Env) :
    dictGet rdBadPerms "permissions" = .ok (.str "not-an-object") ∧
    provision_user env rdBadPerms = ⟨.error .typeError, [], []⟩ :=
  ⟨rfl, rfl⟩

/-! ## C4 -/

/-- C4 counterexample: the claim "`requester_password` is mandatory — a
request missing it yields a MalformedRequest outcome and no network call"
is false: `cexReqNoRPw` lacks `requester_password`, yet `provision_user`
proceeds and issues network calls. -/
theorem C4_counterexample :
    ¬ (∀ (env : Env) (rd : Json),
        dictGet rd "requester_password" = .error (.keyError "requester_password") →
        (∃ m, (provision_user env rd).outcome = .ok (false, m) ∧
          strContainsSub m "MALFORMED REQUEST" = true) ∧
        (provision_user env rd).calls = []) := by
  intro h
  obtain ⟨-, hcalls⟩ := h envAllOk cexReqNoRPw rfl
  have hlen : (provision_user envAllOk cexReqNoRPw).calls.length = 3 := rfl
  rw [hcalls] at hlen
  simp at hlen

/-- C4 amended: the mandatory fields are exactly those the code extracts —
`requester_username`, `target_host`, `username`, `password`, `permissions`
with `configure`/`read`/`write`, and `new_queue_name`; `requester_password`
is not among them.  When extraction raises a KeyError for key `k`, the
outcome is a MalformedRequest failure naming `k` and no network call is
made; a request carrying just the code's fields (no `requester_password`)
passes extraction. -/
theorem C4_amended :
    (∀ (env : Env) (rd : Json) (k : String),
      extractFields rd = .error (.keyError k) →
      provision_user env rd =
        ⟨.ok (false, "MALFORMED REQUEST: Missing mandatory field: \x27" ++ k ++ "\x27"), [],
         ["MALFORMED REQUEST: Missing mandatory field: \x27" ++ k ++ "\x27"]⟩) ∧
    (∀ (ru tv nu npw cfg rg wg q : Json),
      extractFields (mkRequestNoRPw ru tv nu npw cfg rg wg q) =
        .ok ⟨ru, tv, nu, npw, cfg, rg, wg, q⟩) := by
  constructor
  · intro env rd k h
    unfold provision_user
    rw [h]
  · intro ru tv nu npw cfg rg wg q
    rfl

/-- C4 amended, witnessed on the empty request: extraction fails on the
first mandatory field and `provision_user` returns the MalformedRequest
outcome naming it, with no calls. -/
theorem C4_amended_witness :
    extractFields (Json.obj []) = .error (.keyError "requester_username") ∧
    provision_user envAllOk (Json.obj []) =
      ⟨.ok (false, "MALFORMED REQUEST: Missing mandatory field: \x27requester_username\x27"),
       [], ["MALFORMED REQUEST: Missing mandatory field: \x27requester_username\x27"]⟩ := by
  refine ⟨rfl, ?_⟩
  exact C4_amended.1 envAllOk (Json.obj []) "requester_username" rfl

/-! ## C5 -/

/-- C5 counterexample: the claim "whenever the permissions call fails or
its body is not the expected structure, `check_developer_config_rights`
returns false rather than raising" is false: under `envBadPerms` the body
is an array whose entry has no `vhost` field, and the function raises an
uncaught KeyError instead of returning false. -/
theorem C5_counterexample :
    ¬ (∀ (env : Env) (ci : Nat) (ru tv : Json),
        (∀ js, (_make_api_call (env ci)).result = some (some js) →
          expectedPermsShape js = false) →
        (check_developer_config_rights env ci ru tv).result = .ok false) := by
  intro h
  have hshape : ∀ js, (_make_api_call (envBadPerms 0)).result = some (some js) →
      expectedPermsShape js = false := by
    intro js hjs
    have h0 : (_make_api_call (envBadPerms 0)).result = some (some (.arr [Json.obj []])) := rfl
    rw [h0] at hjs
    injection hjs with h1
    injection h1 with h2
    rw [← h2]
    rfl
  have hres := h envBadPerms 0 (.str "alice") (.str "dev-vhost") hshape
  have hev : (check_developer_config_rights envBadPerms 0 (.str "alice")
      (.str "dev-vhost")).result = .error (.keyError "vhost") := rfl
  rw [hev] at hres
  simp at hres

/-- C5 amended: the fail-closed behaviour holds for the two failure modes
the code guards against — the permissions API call returning `None` (after
its retries) and a 2xx body that is not decodable JSON — and in those cases
`check_developer_config_rights` returns false without raising; a decodable
body that is not an array of objects each carrying a `vhost` field
(before the first match) instead raises an uncaught error. -/
theorem C5_amended (env : Env) (ci : Nat) (ru tv : Json)
    (h : (_make_api_call (env ci)).result = none ∨
         (_make_api_call (env ci)).result = some none) :
    (check_developer_config_rights env ci ru tv).result = .ok false := by
  unfold check_developer_config_rights
  rcases h with h | h <;> rw [h] <;> rfl

/-- C5 amended, witnessed on the all-connection-errors environment: the
permissions call fails and the checker returns false. -/
theorem C5_amended_witness :
    (check_developer_config_rights envDown 0 (.str "alice") (.str "dev-vhost")).result =
      .ok false :=
  C5_amended envDown 0 (.str "alice") (.str "dev-vhost") (Or.inl rfl)

/-! ## C6 -/

/-- C6: `_make_api_call` makes at most 3 attempts; after the `i`-th failed
retryable attempt it sleeps `2^i` time units (so 1 unit after attempt 0 and
2 units after attempt 1, never after the final attempt — the sleeps are
exactly `2^a` for `a` ranging over all attempts but the last); and three
consecutive retryable failures yield `None` after exactly 3 attempts with
sleeps 1 and 2. -/
theorem C6_confirmed (env : Nat → AttemptResult) :
    (_make_api_call env).attemptsMade ≤ 3 ∧
    (_make_api_call env).sleeps =
      (List.range ((_make_api_call env).attemptsMade - 1)).map (fun a => 2 ^ a) ∧
    ((retryableAttempt (env 0) = true ∧ retryableAttempt (env 1) = true ∧
      retryableAttempt (env 2) = true) →
      (_make_api_call env).result = none ∧ (_make_api_call env).attemptsMade = 3 ∧
      (_make_api_call env).sleeps = [1, 2]) := by
  rcases h0 : env 0 with b0 | s0 | _
  · simp [_make_api_call, max_retries, apiCallFrom, h0, retryableAttempt]
  · by_cases hf0 : s0 = 401 ∨ s0 = 403
    · simp [_make_api_call, max_retries, apiCallFrom, h0, hf0, retryableAttempt]
    · rcases h1 : env 1 with b1 | s1 | _
      · simp [_make_api_call, max_retries, apiCallFrom, h0, h1, hf0, retryableAttempt,
          List.range_succ]
      · by_cases hf1 : s1 = 401 ∨ s1 = 403
        · simp [_make_api_call, max_retries, apiCallFrom, h0, h1, hf0, hf1,
            retryableAttempt, List.range_succ]
        · rcases h2 : env 2 with b2 | s2 | _
          · simp [_make_api_call, max_retries, apiCallFrom, h0, h1, h2, hf0, hf1,
              retryableAttempt, List.range_succ]
          · by_cases hf2 : s2 = 401 ∨ s2 = 403 <;>
              simp [_make_api_call, max_retries, apiCallFrom, h0, h1, h2, hf0, hf1, hf2,
                retryableAttempt, List.range_succ]
          · simp [_make_api_call, max_retries, apiCallFrom, h0, h1, h2, hf0, hf1,
              retryableAttempt, List.range_succ]
      · rcases h2 : env 2 with b2 | s2 | _
        · simp [_make_api_call, max_retries, apiCallFrom, h0, h1, h2, hf0,
            retryableAttempt, List.range_succ]
        · by_cases hf2 : s2 = 401 ∨ s2 = 403 <;>
            simp [_make_api_call, max_retries, apiCallFrom, h0, h1, h2, hf0, hf2,
              retryableAttempt, List.range_succ]
        · simp [_make_api_call, max_retries, apiCallFrom, h0, h1, h2, hf0,
            retryableAttempt, List.range_succ]
  · rcases h1 : env 1 with b1 | s1 | _
    · simp [_make_api_call, max_retries, apiCallFrom, h0, h1, retryableAttempt,
        List.range_succ]
    · by_cases hf1 : s1 = 401 ∨ s1 = 403
      · simp [_make_api_call, max_retries, apiCallFrom, h0, h1, hf1, retryableAttempt,
          List.range_succ]
      · rcases h2 : env 2 with b2 | s2 | _
        · simp [_make_api_call, max_retries, apiCallFrom, h0, h1, h2, hf1,
            retryableAttempt, List.range_succ]
        · by_cases hf2 : s2 = 401 ∨ s2 = 403 <;>
            simp [_make_api_call, max_retries, apiCallFrom, h0, h1, h2, hf1, hf2,
              retryableAttempt, List.range_succ]
        · simp [_make_api_call, max_retries, apiCallFrom, h0, h1, h2, hf1,
            retryableAttempt, List.range_succ]
    · rcases h2 : env 2 with b2 | s2 | _
      · simp [_make_api_call, max_retries, apiCallFrom, h0, h1, h2, retryableAttempt,
          List.range_succ]
      · by_cases hf2 : s2 = 401 ∨ s2 = 403 <;>
          simp [_make_api_call, max_retries, apiCallFrom, h0, h1, h2, hf2,
            retryableAttempt, List.range_succ]
      · simp [_make_api_call, max_retries, apiCallFrom, h0, h1, h2, retryableAttempt,
          List.range_succ]

/-- C6, witnessed on three consecutive connection errors: failure after
exactly 3 attempts with sleeps of 1 then 2 time units. -/
theorem C6_witness :
    (_make_api_call (fun _ => AttemptResult.connError)).result = none ∧
    (_make_api_call (fun _ => AttemptResult.connError)).attemptsMade = 3 ∧
    (_make_api_call (fun _ => AttemptResult.connError)).sleeps = [1, 2] :=
  (C6_confirmed (fun _ => AttemptResult.connError)).2.2 ⟨rfl, rfl, rfl⟩

/-! ## C7 -/

/-- C7: when the upstream responds 401 or 403 at attempt `i` (all earlier
attempts having failed retryably, so the loop reaches attempt `i`),
`_make_api_call` returns `None` immediately at that attempt: `i + 1`
attempts total, no further retries, and no backoff sleep after attempt `i`
(the sleeps are exactly those of the earlier attempts). -/
theorem C7_confirmed (env : Nat → AttemptResult) (i s : Nat)
    (hi : i < max_retries) (hs : s = 401 ∨ s = 403)
    (hpre : ∀ j, j < i → retryableAttempt (env j) = true)
    (henv : env i = .httpError s) :
    (_make_api_call env).result = none ∧
    (_make_api_call env).attemptsMade = i + 1 ∧
    (_make_api_call env).sleeps = (List.range i).map (fun a => 2 ^ a) := by
  have hmr : max_retries = 3 := rfl
  rw [hmr] at hi
  interval_cases i
  · simp [_make_api_call, max_retries, apiCallFrom, henv, hs]
  · have h0 := hpre 0 (by omega)
    rcases he0 : env 0 with b0 | s0 | _
    · rw [he0] at h0
      simp [retryableAttempt] at h0
    · rw [he0] at h0
      simp [retryableAttempt] at h0
      simp [_make_api_call, max_retries, apiCallFrom, he0, henv, h0, hs, List.range_succ]
    · simp [_make_api_call, max_retries, apiCallFrom, he0, henv, hs, List.range_succ]
  · have h0 := hpre 0 (by omega)
    have h1 := hpre 1 (by omega)
    rcases he0 : env 0 with b0 | s0 | _ <;> rw [he0] at h0
    · simp [retryableAttempt] at h0
    · simp [retryableAttempt] at h0
      rcases he1 : env 1 with b1 | s1 | _ <;> rw [he1] at h1
      · simp [retryableAttempt] at h1
      · simp [retryableAttempt] at h1
        simp [_make_api_call, max_retries, apiCallFrom, he0, he1, henv, h0, h1, hs,
          List.range_succ]
      · simp [_make_api_call, max_retries, apiCallFrom, he0, he1, henv, h0, hs,
          List.range_succ]
    · rcases he1 : env 1 with b1 | s1 | _ <;> rw [he1] at h1
      · simp [retryableAttempt] at h1
      · simp [retryableAttempt] at h1
        simp [_make_api_call, max_retries, apiCallFrom, he0, he1, henv, h1, hs,
          List.range_succ]
      · simp [_make_api_call, max_retries, apiCallFrom, he0, he1, henv, hs,
          List.range_succ]

/-- C7, witnessed on an environment that answers 403 at the first attempt:
one attempt, no sleeps, failure returned. -/
theorem C7_witness :
    (_make_api_call (fun _ => AttemptResult.httpError 403)).result = none ∧
    (_make_api_call (fun _ => AttemptResult.httpError 403)).attemptsMade = 1 ∧
    (_make_api_call (fun _ => AttemptResult.httpError 403)).sleeps = [] := by
  have h := C7_confirmed (fun _ => AttemptResult.httpError 403) 0 403 (by decide)
    (Or.inr rfl) (fun j hj => absurd hj (by omega)) rfl
  simpa using h

/-! ## C8 -/

/-- Value of the `vhost` field of a permission entry, when the entry is an
object carrying one. -/
def entryVhost (p : Json) : Option Json :=
  match p with
  | .obj kvs => (kvs.find? (fun kv => kv.1 == "vhost")).map (fun kv => kv.2)
  | _ => none

/-- Value of the `configure` field of a permission entry, when the entry is
an object carrying one. -/
def entryConfigure (p : Json) : Option Json :=
  match p with
  | .obj kvs => (kvs.find? (fun kv => kv.1 == "configure")).map (fun kv => kv.2)
  | _ => none

/-- Well-formed permission entry: an object whose `vhost` field is a string
and whose `configure` field, when present, is a string. -/
def wellFormedEntry (p : Json) : Bool :=
  (match entryVhost p with
   | some (.str _) => true
   | _ => false) &&
  (match entryConfigure p with
   | some (.str _) => true
   | none => true
   | _ => false)

/-- Well-formed permissions array: every entry is well-formed. -/
def wellFormedPerms (items : List Json) : Bool := items.all wellFormedEntry

/-- Entry selection as the claim words it: the entry's `vhost` field equals
the target vhost by exact case-sensitive string comparison. -/
def specVhostMatch (target_vhost : String) (p : Json) : Bool :=
  match entryVhost p with
  | some v => jsonBeq v (.str target_vhost)
  | none => false

/-- Authorization decision as the claim words it: the first entry matching
the target vhost decides; no entry, or a `configure` field that is absent,
empty, or whitespace-only, gives `false`, anything else `true`. -/
def specAuthDecision (target_vhost : String) (items : List Json) : Bool :=
  match items.find? (specVhostMatch target_vhost) with
  | none => false
  | some p =>
    match entryConfigure p with
    | some (.str s) => !(pyStrip s == "")
    | _ => false

theorem wf_dictGet_vhost {p : Json} (h : wellFormedEntry p = true) :
    ∃ vh, dictGet p "vhost" = .ok (.str vh) ∧ entryVhost p = some (.str vh) := by
  cases p
  case obj kvs =>
    cases hfind : kvs.find? (fun kv => kv.1 == "vhost")
    case none => simp [wellFormedEntry, entryVhost, hfind] at h
    case some kv =>
      cases hv : kv.2
      case str s =>
        refine ⟨s, ?_, ?_⟩
        · simp [dictGet, hfind, hv]
        · simp [entryVhost, hfind, hv]
      all_goals simp [wellFormedEntry, entryVhost, hfind, hv] at h
  all_goals simp [wellFormedEntry, entryVhost] at h

theorem wf_entryConfigure {p : Json} (h : wellFormedEntry p = true) :
    entryConfigure p = none ∨ ∃ s, entryConfigure p = some (.str s) := by
  cases hc : entryConfigure p
  case none => exact Or.inl rfl
  case some v =>
    cases v
    case str s => exact Or.inr ⟨s, rfl⟩
    all_goals simp [wellFormedEntry, hc] at h

theorem dictGet_ok_obj {p : Json} {k : String} {v : Json} (h : dictGet p k = .ok v) :
    ∃ kvs, p = .obj kvs := by
  cases p
  case obj kvs => exact ⟨kvs, rfl⟩
  all_goals simp [dictGet] at h

theorem pyTruthy_of_vhost {p : Json} {vh : String}
    (h : dictGet p "vhost" = .ok (.str vh)) : pyTruthy p = true := by
  cases p
  case obj kvs =>
    cases kvs
    case nil => simp [dictGet, List.find?] at h
    case cons a as => simp [pyTruthy]
  all_goals simp [dictGet] at h

/-- Under well-formedness, the lazy generator search of the code equals the
specification's first-match selection. -/
theorem findVhostPerm_wf (tv : String) (items : List Json)
    (hwf : wellFormedPerms items = true) :
    findVhostPerm (.str tv) items = .ok (items.find? (specVhostMatch tv)) := by
  induction items with
  | nil => rfl
  | cons p rest ih =>
    rw [wellFormedPerms, List.all_cons, Bool.and_eq_true] at hwf
    obtain ⟨hp, hrest⟩ := hwf
    obtain ⟨vh, hget, hev⟩ := wf_dictGet_vhost hp
    have hm : specVhostMatch tv p = jsonBeq (.str vh) (.str tv) := by
      simp [specVhostMatch, hev]
    rw [findVhostPerm, hget]
    show (if jsonBeq (.str vh) (.str tv) = true then Except.ok (some p)
          else findVhostPerm (.str tv) rest) = _
    by_cases hb : jsonBeq (Json.str vh) (Json.str tv) = true
    · rw [if_pos hb, List.find?_cons_of_pos _ (by rw [hm]; exact hb)]
    · rw [if_neg hb, List.find?_cons_of_neg _ (by rw [hm]; exact hb),
        ih (by rwa [wellFormedPerms])]

/-- C8: given a well-formed permissions array in the response,
`check_developer_config_rights` decides exactly as the claim states — the
first entry whose `vhost` equals the target by exact case-sensitive string
comparison is selected, and the result is false when no entry matches or
the selected entry's `configure` is absent, empty or whitespace-only, and
true otherwise. -/
theorem C8_confirmed (env : Env) (ci : Nat) (ru : Json) (tv : String)
    (items : List Json)
    (hresp : (_make_api_call (env ci)).result = some (some (.arr items)))
    (hwf : wellFormedPerms items = true) :
    (check_developer_config_rights env ci ru (.str tv)).result =
      .ok (specAuthDecision tv items) := by
  have hres : (check_developer_config_rights env ci ru (.str tv)).result =
      (checkDecision ru (.str tv) (_make_api_call (env ci)).result).1 := rfl
  rw [hres, hresp]
  unfold checkDecision specAuthDecision
  simp only [pyIter]
  rw [findVhostPerm_wf tv items hwf]
  cases hfind : items.find? (specVhostMatch tv) with
  | none => simp
  | some p =>
    have hp : wellFormedEntry p = true := by
      rw [wellFormedPerms] at hwf
      exact List.all_eq_true.mp hwf p (List.mem_of_find?_eq_some hfind)
    obtain ⟨vh, hget, hev⟩ := wf_dictGet_vhost hp
    obtain ⟨kvs, rfl⟩ := dictGet_ok_obj hget
    have htr := pyTruthy_of_vhost hget
    simp only [htr, if_true]
    have hopt : dictGetOpt (.obj kvs) "configure" = .ok (entryConfigure (.obj kvs)) := rfl
    rw [hopt]
    rcases wf_entryConfigure hp with hc | ⟨s, hc⟩
    · simp [hc]
    · rw [hc]
      by_cases hse : s = ""
      · subst hse
        simp [pyTruthy, pyStrip, pyIsSpace]
      · have hts : pyTruthy (.str s) = true := by simp [pyTruthy, hse]
        simp only [hts, if_true]
        by_cases hst : pyStrip s == ""
        · simp [hst]
        · simp [hst]

/-- Permissions body with a single entry for vhost `Prod`. -/
def permsProdBody : List Json :=
  [.obj [("vhost", .str "Prod"), ("configure", .str ".*")]]

/-- Environment whose permissions GET returns `permsProdBody`. -/
def envProd : Env := fun _ _ => .ok (some (.arr permsProdBody))

/-- C8, witnessed on an entry for vhost `Prod`: it authorizes target
`Prod` and, case-sensitively, does not authorize target `prod`. -/
theorem C8_witness :
    wellFormedPerms permsProdBody = true ∧
    (check_developer_config_rights envProd 0 (.str "alice") (.str "Prod")).result =
      .ok true ∧
    (check_developer_config_rights envProd 0 (.str "alice") (.str "prod")).result =
      .ok false := by
  refine ⟨rfl, ?_, ?_⟩
  · have h := C8_confirmed envProd 0 (.str "alice") "Prod" permsProdBody rfl rfl
    rw [h]
    rfl
  · have h := C8_confirmed envProd 0 (.str "alice") "prod" permsProdBody rfl rfl
    rw [h]
    rfl

/-! ## C1 -/

/-- C1 counterexample: the claim "when requester authentication fails the
outcome is AuthenticationFailed and no permission check or mutation occurs"
is false on the code — `provision_user` never authenticates: with an
identity oracle rejecting every credential pair, the run on `cexReqFull`
still proceeds (it performs the permission check and both mutations and
returns success, not an authentication failure). -/
theorem C1_counterexample :
    ¬ (∀ (auth : Json → Json → Bool) (env : Env) (rd ru rpw : Json),
        dictGet rd "requester_username" = .ok ru →
        dictGet rd "requester_password" = .ok rpw →
        auth ru rpw = false →
        (∃ m, (provision_user env rd).outcome = .ok (false, m) ∧
          strContainsSub m "AUTHENTICATION FAILED" = true) ∧
        (provision_user env rd).calls = []) := by
  intro h
  obtain ⟨⟨m, hm, -⟩, -⟩ :=
    h (fun _ _ => false) envAllOk cexReqFull (.str "alice") (.str "Wr0ngPass") rfl rfl rfl
  have hev : (provision_user envAllOk cexReqFull).outcome =
      .ok (true, "SUCCESS: User appuser created with permissions on vhost /dev-vhost for queue \x27orders\x27.") := rfl
  rw [hev] at hm
  simp at hm

/-- C1 amended: the orchestrator has no authentication stage at all — for
every request that passes validation, regardless of the environment and of
the requester's credentials, the first remote call of `provision_user` is
the permissions GET of the authorization check (made with administrative
credentials), not an identity check. -/
theorem C1_amended (env : Env) (rd : Json) (f : Fields)
    (hx : extractFields rd = .ok f) :
    (provision_user env rd).calls.head? =
      some ⟨"GET", "/api/users/" ++ pyStr f.requester_username ++ "/permissions", none⟩ := by
  rw [provision_user_eq_main env rd f hx]
  obtain ⟨kvs, rfl⟩ := extract_obj hx
  unfold provisionMain
  dsimp only
  repeat' split
  all_goals rfl

/-- C1 amended, witnessed on `cexReqFull` under `envAllOk`: the first call
is the permissions GET for requester `alice`. -/
theorem C1_amended_witness :
    extractFields cexReqFull = .ok ⟨.str "alice", .str "dev-vhost", .str "appuser",
      .str "Str0ngPwB", .str ".*", .str "q.*", .str "q.*", .str "orders"⟩ ∧
    (provision_user envAllOk cexReqFull).calls.head? =
      some ⟨"GET", "/api/users/alice/permissions", none⟩ := by
  refine ⟨rfl, ?_⟩
  exact C1_amended envAllOk cexReqFull _ rfl

/-! ## C2 -/

/-- C2 counterexample: the front end's first log line — `Received
provisioning request:` followed by `json.dumps` of the whole request —
contains both the new user's password and the requester's password. -/
theorem C2_counterexample :
    strContainsSub ((handle_provisioning_request envAllOk cexReqFull).logs.headD "")
      "Str0ngPwB" = true ∧
    strContainsSub ((handle_provisioning_request envAllOk cexReqFull).logs.headD "")
      "Wr0ngPass" = true := by
  constructor <;> decide

/-- C2 amended: the outcome (success flag and message) and the
provisioner's own log lines never depend on the two password values — two
requests differing only in `requester_password` and `password` produce
identical outcomes and identical provisioner logs — but the front end's
request log does leak the passwords (see the counterexample). -/
theorem C2_amended (env : Env) (ru tv nu cfg rg wg q tg npwa npwb rpwa rpwb : Json) :
    (provision_user env (mkRequestFull ru rpwa tv nu npwa cfg rg wg q tg)).outcome =
      (provision_user env (mkRequestFull ru rpwb tv nu npwb cfg rg wg q tg)).outcome ∧
    (provision_user env (mkRequestFull ru rpwa tv nu npwa cfg rg wg q tg)).logs =
      (provision_user env (mkRequestFull ru rpwb tv nu npwb cfg rg wg q tg)).logs := by
  have hxa : extractFields (mkRequestFull ru rpwa tv nu npwa cfg rg wg q tg) =
      .ok ⟨ru, tv, nu, npwa, cfg, rg, wg, q⟩ := rfl
  have hxb : extractFields (mkRequestFull ru rpwb tv nu npwb cfg rg wg q tg) =
      .ok ⟨ru, tv, nu, npwb, cfg, rg, wg, q⟩ := rfl
  have hta : dictGetD (mkRequestFull ru rpwa tv nu npwa cfg rg wg q tg) "tags"
      (Json.str "management") = .ok tg := rfl
  have htb : dictGetD (mkRequestFull ru rpwb tv nu npwb cfg rg wg q tg) "tags"
      (Json.str "management") = .ok tg := rfl
  rw [provision_user_eq_main _ _ _ hxa, provision_user_eq_main _ _ _ hxb]
  unfold provisionMain
  dsimp only
  rcases h0 : (check_developer_config_rights env 0 ru tv).result with e | b
  · simp only [h0]
    constructor <;> trivial
  · cases b
    · simp only [h0]
      constructor <;> trivial
    · simp only [h0, hta, htb]
      rcases h1 : (_make_api_call (env 1)).result with - | r1
      · simp only [h1]
        constructor <;> trivial
      · rcases h2 : (_make_api_call (env 2)).result with - | r2
        · simp only [h1, h2]
          constructor <;> trivial
        · simp only [h1, h2]
          constructor <;> trivial

/-! ## C3 -/

/-- C3: when a request passes extraction and authorization and the
user-creation PUT succeeds, the third issued call is the permissions PUT
for (target vhost, new username) whose body carries the caller's
`configure`, `write` and `read` regexes exactly as extracted from the
request — the `configure` value is forwarded unchanged. -/
theorem C3_confirmed (env : Env) (rd : Json) (f : Fields)
    (hx : extractFields rd = .ok f)
    (hchk : (check_developer_config_rights env 0 f.requester_username
      f.target_vhost).result = .ok true)
    (hc1 : (_make_api_call (env 1)).result ≠ none) :
    (provision_user env rd).calls.get? 2 =
      some ⟨"PUT",
            "/api/permissions/" ++ pyStr f.target_vhost ++ "/" ++ pyStr f.new_app_username,
            some (.obj [("configure", f.configure_regex), ("write", f.write_regex),
                        ("read", f.read_regex)])⟩ := by
  rw [provision_user_eq_main env rd f hx]
  obtain ⟨kvs, rfl⟩ := extract_obj hx
  unfold provisionMain
  dsimp only
  simp only [hchk, dictGetD]
  rcases h1 : (_make_api_call (env 1)).result with - | r1
  · exact absurd h1 hc1
  · simp only [h1]
    rcases h2 : (_make_api_call (env 2)).result with - | r2
    · simp only [h2, check_developer_config_rights]
      rfl
    · simp only [h2, check_developer_config_rights]
      rfl

/-- C3, witnessed on `cexReqFull` under `envAllOk`: the permissions PUT
body carries configure `.*`, write `q.*`, read `q.*` verbatim. -/
theorem C3_witness :
    (provision_user envAllOk cexReqFull).calls.get? 2 =
      some ⟨"PUT", "/api/permissions/dev-vhost/appuser",
            some (.obj [("configure", .str ".*"), ("write", .str "q.*"),
                        ("read", .str "q.*")])⟩ := by
  have h := C3_confirmed envAllOk cexReqFull
    ⟨.str "alice", .str "dev-vhost", .str "appuser", .str "Str0ngPwB",
     .str ".*", .str "q.*", .str "q.*", .str "orders"⟩ rfl rfl
    (by rw [show (_make_api_call (envAllOk 1)).result = some (some (Json.obj [])) from rfl]
        simp)
  exact h

/-! ## C9 -/

/-- Success message of `provision_user`, as built on its final line. -/
def successMessage (f : Fields) : String :=
  "SUCCESS: User " ++ pyStr f.new_app_username ++ " created with permissions on vhost /" ++
    pyStr f.target_vhost ++ " for queue \x27" ++ pyStr f.new_queue_name ++ "\x27."

/-- C9: when a request passes extraction and authorization and both PUTs
succeed, the outcome is success and its message contains the new username,
the target vhost and the queue name; the user-creation PUT body carries the
new password and the request's `tags` value, which defaults to
`management` when the request has no `tags` key. -/
theorem C9_confirmed (env : Env) (rd : Json) (f : Fields)
    (hx : extractFields rd = .ok f)
    (hchk : (check_developer_config_rights env 0 f.requester_username
      f.target_vhost).result = .ok true)
    (hc1 : (_make_api_call (env 1)).result ≠ none)
    (hc2 : (_make_api_call (env 2)).result ≠ none) :
    ∃ tg, dictGetD rd "tags" (Json.str "management") = .ok tg ∧
      (dictGet rd "tags" = .error (.keyError "tags") → tg = .str "management") ∧
      (provision_user env rd).calls.get? 1 =
        some ⟨"PUT", "/api/users/" ++ pyStr f.new_app_username,
              some (.obj [("password", f.new_password), ("tags", tg)])⟩ ∧
      (provision_user env rd).outcome = .ok (true, successMessage f) ∧
      strContainsSub (successMessage f) (pyStr f.new_app_username) = true ∧
      strContainsSub (successMessage f) (pyStr f.target_vhost) = true ∧
      strContainsSub (successMessage f) (pyStr f.new_queue_name) = true := by
  rw [provision_user_eq_main env rd f hx]
  obtain ⟨kvs, rfl⟩ := extract_obj hx
  refine ⟨((kvs.find? (fun kv : String × Json => kv.1 == "tags")).map
    (fun kv : String × Json => kv.2)).getD (.str "management"), rfl, ?_, ?_, ?_, ?_, ?_, ?_⟩
  · intro hkey
    cases hfind : kvs.find? (fun kv => kv.1 == "tags") with
    | none => simp [hfind]
    | some kv => simp [dictGet, hfind] at hkey
  · unfold provisionMain
    dsimp only
    simp only [hchk, dictGetD]
    rcases h1 : (_make_api_call (env 1)).result with - | r1
    · exact absurd h1 hc1
    · simp only [h1]
      rcases h2 : (_make_api_call (env 2)).result with - | r2
      · exact absurd h2 hc2
      · simp only [h2, check_developer_config_rights]
        rfl
  · unfold provisionMain
    dsimp only
    simp only [hchk, dictGetD]
    rcases h1 : (_make_api_call (env 1)).result with - | r1
    · exact absurd h1 hc1
    · simp only [h1]
      rcases h2 : (_make_api_call (env 2)).result with - | r2
      · exact absurd h2 hc2
      · simp only [h2]
        rfl
  · exact strContainsSub_of_data _ _ ("SUCCESS: User ").data
      ((" created with permissions on vhost /" ++ pyStr f.target_vhost ++
        " for queue \x27" ++ pyStr f.new_queue_name ++ "\x27.").data)
      (by simp [successMessage, String.data_append, List.append_assoc])
  · exact strContainsSub_of_data _ _
      (("SUCCESS: User " ++ pyStr f.new_app_username ++
        " created with permissions on vhost /").data)
      ((" for queue \x27" ++ pyStr f.new_queue_name ++ "\x27.").data)
      (by simp [successMessage, String.data_append, List.append_assoc])
  · exact strContainsSub_of_data _ _
      (("SUCCESS: User " ++ pyStr f.new_app_username ++
        " created with permissions on vhost /" ++ pyStr f.target_vhost ++
        " for queue \x27").data)
      (("\x27.").data)
      (by simp [successMessage, String.data_append, List.append_assoc])

/-- C9, witnessed on `cexReqFull` (which has no `tags` key) under
`envAllOk`: success outcome naming `appuser`, `dev-vhost` and `orders`, and
a user PUT carrying the new password with the default `management` tag. -/
theorem C9_witness :
    (provision_user envAllOk cexReqFull).outcome =
      .ok (true, "SUCCESS: User appuser created with permissions on vhost /dev-vhost for queue \x27orders\x27.") ∧
    (provision_user envAllOk cexReqFull).calls.get? 1 =
      some ⟨"PUT", "/api/users/appuser",
            some (.obj [("password", .str "Str0ngPwB"), ("tags", .str "management")])⟩ := by
  obtain ⟨tg, htg, -, hcalls, hout, -, -, -⟩ :=
    C9_confirmed envAllOk cexReqFull
      ⟨.str "alice", .str "dev-vhost", .str "appuser", .str "Str0ngPwB",
       .str ".*", .str "q.*", .str "q.*", .str "orders"⟩ rfl rfl
      (by rw [show (_make_api_call (envAllOk 1)).result = some (some (Json.obj [])) from rfl]
          simp)
      (by rw [show (_make_api_call (envAllOk 2)).result = some (some (Json.obj [])) from rfl]
          simp)
  have htg2 : Json.str "management" = tg := by
    have h2 : dictGetD cexReqFull "tags" (Json.str "management") =
      .ok (.str "management") := rfl
    rw [h2] at htg
    injection htg with h3
  refine ⟨hout, ?_⟩
  rw [← htg2] at hcalls
  exact hcalls
